import Mathlib

/-!
# Verification of the OpenEPaperLink-3DPE provisioning / configuration core

Shallow embedding of the device provisioning and configuration lifecycle
subsystem of the `ESP32_AP-Flasher` firmware:

* `nvs_config.cpp` / `nvs_config.h` — the persistent configuration store
  (`NVSConfig`), built on the ESP32 `Preferences` key/value library;
* `serial_provisioning.cpp` / `serial_provisioning.h` — the line-delimited
  JSON serial provisioning protocol (`SerialProvisioning`);
* `device_config.cpp` / `device_config.h` — the in-memory versioned device
  configuration model and its server-response merge
  (`DeviceConfigManager`).

Pure state (the NVS key/value namespace, the in-memory `DeviceConfig`, the
serial accumulation buffer) is passed explicitly.  JSON
serialization/deserialization (ArduinoJson) and HTTP transport are external
collaborators of the firmware; commands and server responses therefore
enter the model already deserialized, as records of `Option` fields where
`none` means the key is absent (or, for `const char*` extraction, not a
string), exactly mirroring how the C++ code interrogates the parsed
document.
-/

/-! ## The NVS key/value store and the ESP32 `Preferences` handle

The `Preferences` structure models the ESP32 Arduino `Preferences` library
(an external dependency of `nvs_config.cpp`): a handle is opened on a
namespace with `begin(ns, readOnly)` and closed with `end()`.  Every
`get*` accessor of that library returns the caller-supplied default value
when the handle is not started (i.e. before `begin` or after `end`), and
every `put*` mutator is a no-op (returns 0) when the handle is not started
or was opened read-only.  Keys absent from the namespace also yield the
caller-supplied default.  `clear()` erases every key of the namespace.
-/

/-- The keys used by `nvs_config.cpp` within the `smd_config` namespace,
with `none` meaning the key is absent (initial state, or after `clear`). -/
structure NvsStore where
  provisioned : Option Bool
  wifi_ssid : Option String
  wifi_pass : Option String
  wifi_ssid_bk : Option String
  wifi_pass_bk : Option String
  server_url : Option String
deriving DecidableEq, Repr

/-- A freshly erased namespace: every key absent. -/
def emptyStore : NvsStore :=
  { provisioned := none, wifi_ssid := none, wifi_pass := none
    wifi_ssid_bk := none, wifi_pass_bk := none, server_url := none }

def KEY_PROVISIONED : String := "provisioned"
def KEY_WIFI_SSID : String := "wifi_ssid"
def KEY_WIFI_PASS : String := "wifi_pass"
def KEY_WIFI_SSID_BK : String := "wifi_ssid_bk"
def KEY_WIFI_PASS_BK : String := "wifi_pass_bk"
def KEY_SERVER_URL : String := "server_url"

/-- An ESP32 `Preferences` handle over the `smd_config` namespace:
`started` is the library's `_started` flag (set by `begin`, cleared by
`end`), `readOnly` the mode `begin` was called with, `nvs` the persistent
contents of the namespace. -/
structure Preferences where
  started : Bool
  readOnly : Bool
  nvs : NvsStore
deriving DecidableEq, Repr

/-- `Preferences::begin(NVS_NAMESPACE, readOnly)` on stored contents. -/
def prefsBegin (st : NvsStore) (readOnly : Bool) : Preferences :=
  { started := true, readOnly := readOnly, nvs := st }

/-- `Preferences::end()`: closes the handle; the stored contents persist. -/
def prefsEnd (p : Preferences) : Preferences :=
  { p with started := false }

/-- `Preferences::getString(key, default)`: the default when the handle is
not started or the key is absent (or holds a non-string value). -/
def Preferences.getString (p : Preferences) (key : String) (dflt : String) : String :=
  if p.started = false then dflt
  else if key = KEY_WIFI_SSID then (p.nvs.wifi_ssid).getD dflt
  else if key = KEY_WIFI_PASS then (p.nvs.wifi_pass).getD dflt
  else if key = KEY_WIFI_SSID_BK then (p.nvs.wifi_ssid_bk).getD dflt
  else if key = KEY_WIFI_PASS_BK then (p.nvs.wifi_pass_bk).getD dflt
  else if key = KEY_SERVER_URL then (p.nvs.server_url).getD dflt
  else dflt

/-- `Preferences::getBool(key, default)`. -/
def Preferences.getBool (p : Preferences) (key : String) (dflt : Bool) : Bool :=
  if p.started = false then dflt
  else if key = KEY_PROVISIONED then (p.nvs.provisioned).getD dflt
  else dflt

/-- `Preferences::putString(key, value)`: a no-op unless the handle is
started read-write. -/
def Preferences.putString (p : Preferences) (key : String) (value : String) : Preferences :=
  if p.started = false ∨ p.readOnly = true then p
  else if key = KEY_WIFI_SSID then { p with nvs := { p.nvs with wifi_ssid := some value } }
  else if key = KEY_WIFI_PASS then { p with nvs := { p.nvs with wifi_pass := some value } }
  else if key = KEY_WIFI_SSID_BK then { p with nvs := { p.nvs with wifi_ssid_bk := some value } }
  else if key = KEY_WIFI_PASS_BK then { p with nvs := { p.nvs with wifi_pass_bk := some value } }
  else if key = KEY_SERVER_URL then { p with nvs := { p.nvs with server_url := some value } }
  else p

/-- `Preferences::putBool(key, value)`: a no-op unless the handle is
started read-write. -/
def Preferences.putBool (p : Preferences) (key : String) (value : Bool) : Preferences :=
  if p.started = false ∨ p.readOnly = true then p
  else if key = KEY_PROVISIONED then { p with nvs := { p.nvs with provisioned := some value } }
  else p

/-- `Preferences::clear()`: erases every key of the namespace (no-op on a
closed or read-only handle). -/
def Preferences.clear (p : Preferences) : Preferences :=
  if p.started = false ∨ p.readOnly = true then p
  else { p with nvs := emptyStore }

/-! ## `NVSConfig` (nvs_config.cpp)

Each operation opens the namespace (`ensureOpen`), performs its reads or
writes, and closes it again, exactly as in the source.  The persistent
`NvsStore` is threaded explicitly; getters return their value, setters the
updated store. -/

namespace NVSConfig

/-- Maximum string lengths from `nvs_config.h`. -/
def MAX_SSID_LENGTH : Nat := 32

def MAX_PASSWORD_LENGTH : Nat := 64

def MAX_URL_LENGTH : Nat := 256

/-- `NVSConfig::isProvisioned`. -/
def isProvisioned (st : NvsStore) : Bool :=
  let p := prefsBegin st true
  let result := p.getBool KEY_PROVISIONED false
  result

/-- `NVSConfig::setProvisioned`. -/
def setProvisioned (value : Bool) (st : NvsStore) : NvsStore :=
  let p := prefsBegin st false
  let p := p.putBool KEY_PROVISIONED value
  (prefsEnd p).nvs

/-- `NVSConfig::getWiFiSSID`. -/
def getWiFiSSID (st : NvsStore) : String :=
  let p := prefsBegin st true
  let result := p.getString KEY_WIFI_SSID ""
  result

/-- `NVSConfig::setWiFiSSID`: rejects (no-op) an SSID longer than
`MAX_SSID_LENGTH`, otherwise writes the single key. -/
def setWiFiSSID (ssid : String) (st : NvsStore) : NvsStore :=
  if ssid.length > MAX_SSID_LENGTH then st
  else
    let p := prefsBegin st false
    let p := p.putString KEY_WIFI_SSID ssid
    (prefsEnd p).nvs

/-- `NVSConfig::getWiFiPassword`. -/
def getWiFiPassword (st : NvsStore) : String :=
  let p := prefsBegin st true
  let result := p.getString KEY_WIFI_PASS ""
  result

/-- `NVSConfig::setWiFiPassword`. -/
def setWiFiPassword (password : String) (st : NvsStore) : NvsStore :=
  if password.length > MAX_PASSWORD_LENGTH then st
  else
    let p := prefsBegin st false
    let p := p.putString KEY_WIFI_PASS password
    (prefsEnd p).nvs

/-- `NVSConfig::getWiFiSSIDBackup`. -/
def getWiFiSSIDBackup (st : NvsStore) : String :=
  let p := prefsBegin st true
  let result := p.getString KEY_WIFI_SSID_BK ""
  result

/-- `NVSConfig::setWiFiSSIDBackup`. -/
def setWiFiSSIDBackup (ssid : String) (st : NvsStore) : NvsStore :=
  if ssid.length > MAX_SSID_LENGTH then st
  else
    let p := prefsBegin st false
    let p := p.putString KEY_WIFI_SSID_BK ssid
    (prefsEnd p).nvs

/-- `NVSConfig::getWiFiPasswordBackup`. -/
def getWiFiPasswordBackup (st : NvsStore) : String :=
  let p := prefsBegin st true
  let result := p.getString KEY_WIFI_PASS_BK ""
  result

/-- `NVSConfig::setWiFiPasswordBackup`. -/
def setWiFiPasswordBackup (password : String) (st : NvsStore) : NvsStore :=
  if password.length > MAX_PASSWORD_LENGTH then st
  else
    let p := prefsBegin st false
    let p := p.putString KEY_WIFI_PASS_BK password
    (prefsEnd p).nvs

/-- `NVSConfig::getServerURL`. -/
def getServerURL (st : NvsStore) : String :=
  let p := prefsBegin st true
  let result := p.getString KEY_SERVER_URL ""
  result

/-- `NVSConfig::setServerURL`. -/
def setServerURL (url : String) (st : NvsStore) : NvsStore :=
  if url.length > MAX_URL_LENGTH then st
  else
    let p := prefsBegin st false
    let p := p.putString KEY_SERVER_URL url
    (prefsEnd p).nvs

/-- `NVSConfig::clearAll`. -/
def clearAll (st : NvsStore) : NvsStore :=
  let p := prefsBegin st false
  let p := p.clear
  (prefsEnd p).nvs

/-- `NVSConfig::getConfigSummary`.  Matches the source line by line: the
four plain fields are read while the handle is open; the handle is then
closed (`close()`), and the two password reads in the string-building part
happen on the closed handle, as in the source, where they appear after the
`close()` call. -/
def getConfigSummary (st : NvsStore) : String :=
  let p := prefsBegin st true
  let ssid := p.getString KEY_WIFI_SSID ""
  let ssidBackup := p.getString KEY_WIFI_SSID_BK ""
  let serverUrl := p.getString KEY_SERVER_URL ""
  let provisioned := p.getBool KEY_PROVISIONED false
  let p := prefsEnd p
  let json := "\x7b"
  let json := json ++ "\"provisioned\":" ++ (if provisioned then "true" else "false") ++ ","
  let json := json ++ "\"wifi_ssid\":\"" ++ ssid ++ "\","
  let json := json ++ "\"wifi_password\":\"" ++
    (if (p.getString KEY_WIFI_PASS "").length > 0 then "****" else "") ++ "\","
  let json := json ++ "\"wifi_ssid_backup\":\"" ++ ssidBackup ++ "\","
  let json := json ++ "\"wifi_password_backup\":\"" ++
    (if (p.getString KEY_WIFI_PASS_BK "").length > 0 then "****" else "") ++ "\","
  let json := json ++ "\"server_url\":\"" ++ serverUrl ++ "\""
  let json := json ++ "\x7d"
  json

end NVSConfig

/-! ## `SerialProvisioning` (serial_provisioning.cpp)

`executeCommand` receives the command line already deserialized by
ArduinoJson (an external collaborator): `none` stands for a
`DeserializationError`; otherwise `CmdDoc` records, for each field the
code interrogates, the string the `const char*` extraction yields (`none`
when the key is absent or its value is not a string).  Responses written
to `Serial` are modelled as structured `Response` values; `sendConfig`
builds the `get_config` payload from the store exactly as the source does
— in particular it carries no password field (source comment: "Passwords
not returned for security"). -/

/-- The fields of a parsed serial command document that
`SerialProvisioning::executeCommand` reads. -/
structure CmdDoc where
  cmd : Option String
  ssid : Option String
  password : Option String
  url : Option String
deriving DecidableEq, Repr

/-- Device identity, fixed at `SerialProvisioning::init` (static members
`deviceType`, `firmwareVersion`) and the WiFi MAC address. -/
structure ProvCtx where
  deviceType : String
  firmwareVersion : String
  mac : String
deriving DecidableEq, Repr

/-- One JSON line written to `Serial` in reply to a command. -/
inductive Response where
  | simple (status : String) (msg : String)
  | info (status : String) (mac : String) (deviceType : String)
      (version : String) (provisioned : Bool)
  | config (status : String) (provisioned : Bool) (wifi_ssid : String)
      (wifi_ssid_backup : String) (server_url : String)
deriving DecidableEq, Repr

/-- The mutable state of the provisioning session that `executeCommand`
touches: the persistent store and the static `restartRequested` flag. -/
structure ProvState where
  store : NvsStore
  restartRequested : Bool
deriving DecidableEq, Repr

/-- `SerialProvisioning::sendDeviceInfo`. -/
def sendDeviceInfo (ctx : ProvCtx) (st : NvsStore) : Response :=
  Response.info "ok" ctx.mac ctx.deviceType ctx.firmwareVersion
    (NVSConfig.isProvisioned st)

/-- `SerialProvisioning::sendConfig`: the `get_config` payload.  Passwords
are not part of the response. -/
def sendConfig (st : NvsStore) : Response :=
  Response.config "ok" (NVSConfig.isProvisioned st)
    (NVSConfig.getWiFiSSID st) (NVSConfig.getWiFiSSIDBackup st)
    (NVSConfig.getServerURL st)

/-- `SerialProvisioning::executeCommand`: dispatch on the `cmd` field and
execute, producing the successor state and the single response line. -/
def executeCommand (ctx : ProvCtx) (doc : Option CmdDoc) (st : ProvState) :
    ProvState × Response :=
  match doc with
  | none => (st, Response.simple "error" "invalid_json")
  | some d =>
    match d.cmd with
    | none => (st, Response.simple "error" "missing_cmd")
    | some "get_info" => (st, sendDeviceInfo ctx st.store)
    | some "get_config" => (st, sendConfig st.store)
    | some "set_wifi" =>
      match d.ssid with
      | none => (st, Response.simple "error" "missing_ssid")
      | some ssid =>
        let s1 := NVSConfig.setWiFiSSID ssid st.store
        let s2 := match d.password with
          | some password => NVSConfig.setWiFiPassword password s1
          | none => s1
        ({ st with store := s2 }, Response.simple "ok" "wifi_set")
    | some "set_wifi_backup" =>
      match d.ssid with
      | none => (st, Response.simple "error" "missing_ssid")
      | some ssid =>
        let s1 := NVSConfig.setWiFiSSIDBackup ssid st.store
        let s2 := match d.password with
          | some password => NVSConfig.setWiFiPasswordBackup password s1
          | none => s1
        ({ st with store := s2 }, Response.simple "ok" "wifi_backup_set")
    | some "set_server" =>
      match d.url with
      | none => (st, Response.simple "error" "missing_url")
      | some url =>
        ({ st with store := NVSConfig.setServerURL url st.store },
          Response.simple "ok" "server_set")
    | some "provision" =>
      let ssid := NVSConfig.getWiFiSSID st.store
      let serverUrl := NVSConfig.getServerURL st.store
      if ssid.length = 0 then
        (st, Response.simple "error" "wifi_not_configured")
      else if serverUrl.length = 0 then
        (st, Response.simple "error" "server_not_configured")
      else
        ({ store := NVSConfig.setProvisioned true st.store, restartRequested := true },
          Response.simple "ok" "provisioned")
    | some "reset" =>
      ({ store := NVSConfig.clearAll st.store, restartRequested := true },
        Response.simple "ok" "config_cleared")
    | some "reboot" =>
      ({ st with restartRequested := true }, Response.simple "ok" "rebooting")
    | some _ => (st, Response.simple "error" "unknown_command")

/-- `SERIAL_BUFFER_SIZE` from `serial_provisioning.h`. -/
def SERIAL_BUFFER_SIZE : Nat := 512

/-- Observable effects of `SerialProvisioning::processSerial`: a completed
line handed to `executeCommand`, or the `command_too_long` error line
printed on buffer overflow. -/
inductive SerialEvent where
  | line (content : String)
  | tooLong
deriving DecidableEq, Repr

/-- `SerialProvisioning::processSerial`, at the framing layer: drains the
given pending input characters, threading the accumulation state
(`serialBuffer` contents paired with `bufferIndex`), and returns the final
accumulation state together with the emitted events in order.  A
terminator on a non-empty buffer emits the buffered line and resets the
index; a character that finds the buffer full emits `command_too_long`,
resets the index and is itself dropped, exactly as in the source. -/
def processSerial : List Char → List Char → Nat → (List Char × Nat) × List SerialEvent
  | [], buf, idx => ((buf, idx), [])
  | c :: rest, buf, idx =>
    if c = '\n' ∨ c = '\r' then
      if idx > 0 then
        let r := processSerial rest [] 0
        (r.1, SerialEvent.line (String.mk (buf.take idx)) :: r.2)
      else
        processSerial rest buf idx
    else if idx < SERIAL_BUFFER_SIZE - 1 then
      processSerial rest (buf.take idx ++ [c]) (idx + 1)
    else
      let r := processSerial rest [] 0
      (r.1, SerialEvent.tooLong :: r.2)

/-! ## `DeviceConfigManager` (device_config.cpp)

The server response reaches `parseConfigJson` already deserialized by
ArduinoJson: `none` for a `DeserializationError`, otherwise `RespDoc`.
`success` is the result of `doc["success"].as<bool>()` (false when absent
or not true); `config` is `none` when `doc["config"]` is absent, null or
not an object; an `Option` field of `ConfigObj` is `none` when the key is
absent (`containsKey` false); `template_id` distinguishes a present-but-
null value (`some none`) from a present integer (`some (some v)`).  HTTP
transport is a collaborator: `fetchConfig` receives connectivity, status
code and the deserialized body as a `FetchEnv`. -/

/-- `struct DeviceConfig` from `device_config.h`. -/
structure DeviceConfig where
  heartbeat_interval_seconds : Int
  wifi_timeout_seconds : Int
  display_refresh_on_heartbeat : Bool
  display_rotation : Int
  show_logo : Bool
  screen_brightness : Int
  deep_sleep_enabled : Bool
  wake_on_button : Bool
  template_id : Int
  content_refresh_seconds : Int
  config_version : Int
deriving DecidableEq, Repr

/-- `DEFAULT_DEVICE_CONFIG` from `device_config.h`. -/
def DEFAULT_DEVICE_CONFIG : DeviceConfig :=
  { heartbeat_interval_seconds := 60
    wifi_timeout_seconds := 30
    display_refresh_on_heartbeat := false
    display_rotation := 1
    show_logo := true
    screen_brightness := 100
    deep_sleep_enabled := false
    wake_on_button := true
    template_id := 0
    content_refresh_seconds := 300
    config_version := 1 }

/-- The `config` object of a server response, as `parseConfigJson`
interrogates it: each field `none` when `containsKey` is false. -/
structure ConfigObj where
  heartbeat_interval_seconds : Option Int
  wifi_timeout_seconds : Option Int
  display_refresh_on_heartbeat : Option Bool
  display_rotation : Option Int
  show_logo : Option Bool
  screen_brightness : Option Int
  deep_sleep_enabled : Option Bool
  wake_on_button : Option Bool
  template_id : Option (Option Int)
  content_refresh_seconds : Option Int
deriving DecidableEq, Repr

/-- A `config` object with every key absent. -/
def emptyConfigObj : ConfigObj :=
  { heartbeat_interval_seconds := none, wifi_timeout_seconds := none
    display_refresh_on_heartbeat := none, display_rotation := none
    show_logo := none, screen_brightness := none, deep_sleep_enabled := none
    wake_on_button := none, template_id := none, content_refresh_seconds := none }

/-- A deserialized server response body: top-level `success` flag,
optional `config` object, optional top-level `config_version`. -/
structure RespDoc where
  success : Bool
  config : Option ConfigObj
  config_version : Option Int
deriving DecidableEq, Repr

/-- The field-by-field sparse merge of `parseConfigJson` (its body between
the `config` extraction and the top-level `config_version` handling):
each present key overwrites the corresponding field, each absent key
leaves the current value; a present-but-null `template_id` becomes 0.
`config_version` is not touched here. -/
def mergeConfig (config : ConfigObj) (cur : DeviceConfig) : DeviceConfig :=
  { heartbeat_interval_seconds :=
      (config.heartbeat_interval_seconds).getD cur.heartbeat_interval_seconds
    wifi_timeout_seconds := (config.wifi_timeout_seconds).getD cur.wifi_timeout_seconds
    display_refresh_on_heartbeat :=
      (config.display_refresh_on_heartbeat).getD cur.display_refresh_on_heartbeat
    display_rotation := (config.display_rotation).getD cur.display_rotation
    show_logo := (config.show_logo).getD cur.show_logo
    screen_brightness := (config.screen_brightness).getD cur.screen_brightness
    deep_sleep_enabled := (config.deep_sleep_enabled).getD cur.deep_sleep_enabled
    wake_on_button := (config.wake_on_button).getD cur.wake_on_button
    template_id :=
      match config.template_id with
      | none => cur.template_id
      | some none => 0
      | some (some v) => v
    content_refresh_seconds :=
      (config.content_refresh_seconds).getD cur.content_refresh_seconds
    config_version := cur.config_version }

/-- `DeviceConfigManager::parseConfigJson`: `none` exactly on the early
returns (deserialization error, `success` not true, missing `config`
object); otherwise the sparsely merged configuration, with
`config_version` overwritten from the top-level field when present. -/
def parseConfigJson (doc : Option RespDoc) (cur : DeviceConfig) : Option DeviceConfig :=
  match doc with
  | none => none
  | some d =>
    if d.success = false then none
    else
      match d.config with
      | none => none
      | some config =>
        let merged := mergeConfig config cur
        some (match d.config_version with
          | some v => { merged with config_version := v }
          | none => merged)

/-- The environment of one `DeviceConfigManager::fetchConfig` call: WiFi
connectivity, the HTTP status code of the GET, and the deserialized
response body (`none` both when the body is irrelevant because the status
is not 200 and when deserialization of the payload fails). -/
structure FetchEnv where
  wifiConnected : Bool
  httpCode : Int
  payload : Option RespDoc
deriving DecidableEq, Repr

/-- `DeviceConfigManager::fetchConfig`, threading the static members
`currentConfig` and `configLoaded`: returns the boolean result together
with their successor values. -/
def fetchConfig (env : FetchEnv) (cur : DeviceConfig) (loaded : Bool) :
    Bool × DeviceConfig × Bool :=
  if env.wifiConnected = false then (false, cur, loaded)
  else if env.httpCode = 200 then
    match parseConfigJson env.payload cur with
    | some c => (true, c, true)
    | none => (false, cur, loaded)
  else (false, cur, loaded)

/-- `DeviceConfigManager::needsRefresh`. -/
def needsRefresh (serverVersion : Int) (cur : DeviceConfig) : Bool :=
  serverVersion != cur.config_version

/-! ## Command sequences

Auxiliary notions for reasoning about runs of several serial commands. -/

/-- Execute a sequence of (already deserialized) command lines in order,
keeping the final session state. -/
def runCmds (ctx : ProvCtx) (docs : List CmdDoc) (st : ProvState) : ProvState :=
  docs.foldl (fun s d => (executeCommand ctx (some d) s).1) st

/-- A well-formed credential-writing command: a `set_wifi` whose `ssid`
is present and within `MAX_SSID_LENGTH` (and whose `password`, when
present, is within `MAX_PASSWORD_LENGTH`), or a `set_server` whose `url`
is present and within `MAX_URL_LENGTH`. -/
def validSetCmd (d : CmdDoc) : Prop :=
  (d.cmd = some "set_wifi"
    ∧ (∃ v, d.ssid = some v ∧ v.length ≤ NVSConfig.MAX_SSID_LENGTH)
    ∧ (∀ pw, d.password = some pw → pw.length ≤ NVSConfig.MAX_PASSWORD_LENGTH))
  ∨ (d.cmd = some "set_server"
    ∧ (∃ u, d.url = some u ∧ u.length ≤ NVSConfig.MAX_URL_LENGTH))

/-- The SSID last written by a sequence of `set_wifi` commands, starting
from the given current value. -/
def lastSsid (docs : List CmdDoc) (current : String) : String :=
  docs.foldl
    (fun acc d => if d.cmd = some "set_wifi" then (d.ssid).getD acc else acc) current

/-- The server URL last written by a sequence of `set_server` commands,
starting from the given current value. -/
def lastUrl (docs : List CmdDoc) (current : String) : String :=
  docs.foldl
    (fun acc d => if d.cmd = some "set_server" then (d.url).getD acc else acc) current

/-! ## Bridge lemmas

Record-level descriptions of the `NVSConfig` operations: each getter reads
one key with its default, each setter writes one key (or rejects), and no
setter touches any other key. -/

@[simp] theorem isProvisioned_def (st : NvsStore) :
    NVSConfig.isProvisioned st = (st.provisioned).getD false := rfl

@[simp] theorem getWiFiSSID_def (st : NvsStore) :
    NVSConfig.getWiFiSSID st = (st.wifi_ssid).getD "" := rfl

@[simp] theorem getWiFiPassword_def (st : NvsStore) :
    NVSConfig.getWiFiPassword st = (st.wifi_pass).getD "" := rfl

@[simp] theorem getWiFiSSIDBackup_def (st : NvsStore) :
    NVSConfig.getWiFiSSIDBackup st = (st.wifi_ssid_bk).getD "" := rfl

@[simp] theorem getWiFiPasswordBackup_def (st : NvsStore) :
    NVSConfig.getWiFiPasswordBackup st = (st.wifi_pass_bk).getD "" := rfl

@[simp] theorem getServerURL_def (st : NvsStore) :
    NVSConfig.getServerURL st = (st.server_url).getD "" := rfl

@[simp] theorem setProvisioned_eq (v : Bool) (st : NvsStore) :
    NVSConfig.setProvisioned v st = { st with provisioned := some v } := rfl

@[simp] theorem clearAll_eq (st : NvsStore) :
    NVSConfig.clearAll st = emptyStore := rfl

theorem setWiFiSSID_of_long (a : String) (st : NvsStore)
    (h : a.length > NVSConfig.MAX_SSID_LENGTH) :
    NVSConfig.setWiFiSSID a st = st := by
  unfold NVSConfig.setWiFiSSID; rw [if_pos h]

@[simp] theorem setWiFiSSID_ssid (a : String) (st : NvsStore)
    (h : a.length ≤ NVSConfig.MAX_SSID_LENGTH) :
    (NVSConfig.setWiFiSSID a st).wifi_ssid = some a := by
  unfold NVSConfig.setWiFiSSID; rw [if_neg (Nat.not_lt.mpr h)]; rfl

@[simp] theorem setWiFiSSID_provisioned (a : String) (st : NvsStore) :
    (NVSConfig.setWiFiSSID a st).provisioned = st.provisioned := by
  unfold NVSConfig.setWiFiSSID; split <;> rfl

@[simp] theorem setWiFiSSID_pass (a : String) (st : NvsStore) :
    (NVSConfig.setWiFiSSID a st).wifi_pass = st.wifi_pass := by
  unfold NVSConfig.setWiFiSSID; split <;> rfl

@[simp] theorem setWiFiSSID_ssid_bk (a : String) (st : NvsStore) :
    (NVSConfig.setWiFiSSID a st).wifi_ssid_bk = st.wifi_ssid_bk := by
  unfold NVSConfig.setWiFiSSID; split <;> rfl

@[simp] theorem setWiFiSSID_pass_bk (a : String) (st : NvsStore) :
    (NVSConfig.setWiFiSSID a st).wifi_pass_bk = st.wifi_pass_bk := by
  unfold NVSConfig.setWiFiSSID; split <;> rfl

@[simp] theorem setWiFiSSID_server_url (a : String) (st : NvsStore) :
    (NVSConfig.setWiFiSSID a st).server_url = st.server_url := by
  unfold NVSConfig.setWiFiSSID; split <;> rfl

theorem setWiFiPassword_of_long (a : String) (st : NvsStore)
    (h : a.length > NVSConfig.MAX_PASSWORD_LENGTH) :
    NVSConfig.setWiFiPassword a st = st := by
  unfold NVSConfig.setWiFiPassword; rw [if_pos h]

@[simp] theorem setWiFiPassword_pass (a : String) (st : NvsStore)
    (h : a.length ≤ NVSConfig.MAX_PASSWORD_LENGTH) :
    (NVSConfig.setWiFiPassword a st).wifi_pass = some a := by
  unfold NVSConfig.setWiFiPassword; rw [if_neg (Nat.not_lt.mpr h)]; rfl

@[simp] theorem setWiFiPassword_provisioned (a : String) (st : NvsStore) :
    (NVSConfig.setWiFiPassword a st).provisioned = st.provisioned := by
  unfold NVSConfig.setWiFiPassword; split <;> rfl

@[simp] theorem setWiFiPassword_ssid (a : String) (st : NvsStore) :
    (NVSConfig.setWiFiPassword a st).wifi_ssid = st.wifi_ssid := by
  unfold NVSConfig.setWiFiPassword; split <;> rfl

@[simp] theorem setWiFiPassword_ssid_bk (a : String) (st : NvsStore) :
    (NVSConfig.setWiFiPassword a st).wifi_ssid_bk = st.wifi_ssid_bk := by
  unfold NVSConfig.setWiFiPassword; split <;> rfl

@[simp] theorem setWiFiPassword_pass_bk (a : String) (st : NvsStore) :
    (NVSConfig.setWiFiPassword a st).wifi_pass_bk = st.wifi_pass_bk := by
  unfold NVSConfig.setWiFiPassword; split <;> rfl

@[simp] theorem setWiFiPassword_server_url (a : String) (st : NvsStore) :
    (NVSConfig.setWiFiPassword a st).server_url = st.server_url := by
  unfold NVSConfig.setWiFiPassword; split <;> rfl

theorem setWiFiSSIDBackup_of_long (a : String) (st : NvsStore)
    (h : a.length > NVSConfig.MAX_SSID_LENGTH) :
    NVSConfig.setWiFiSSIDBackup a st = st := by
  unfold NVSConfig.setWiFiSSIDBackup; rw [if_pos h]

@[simp] theorem setWiFiSSIDBackup_ssid_bk (a : String) (st : NvsStore)
    (h : a.length ≤ NVSConfig.MAX_SSID_LENGTH) :
    (NVSConfig.setWiFiSSIDBackup a st).wifi_ssid_bk = some a := by
  unfold NVSConfig.setWiFiSSIDBackup; rw [if_neg (Nat.not_lt.mpr h)]; rfl

@[simp] theorem setWiFiSSIDBackup_provisioned (a : String) (st : NvsStore) :
    (NVSConfig.setWiFiSSIDBackup a st).provisioned = st.provisioned := by
  unfold NVSConfig.setWiFiSSIDBackup; split <;> rfl

@[simp] theorem setWiFiSSIDBackup_ssid (a : String) (st : NvsStore) :
    (NVSConfig.setWiFiSSIDBackup a st).wifi_ssid = st.wifi_ssid := by
  unfold NVSConfig.setWiFiSSIDBackup; split <;> rfl

@[simp] theorem setWiFiSSIDBackup_pass (a : String) (st : NvsStore) :
    (NVSConfig.setWiFiSSIDBackup a st).wifi_pass = st.wifi_pass := by
  unfold NVSConfig.setWiFiSSIDBackup; split <;> rfl

@[simp] theorem setWiFiSSIDBackup_pass_bk (a : String) (st : NvsStore) :
    (NVSConfig.setWiFiSSIDBackup a st).wifi_pass_bk = st.wifi_pass_bk := by
  unfold NVSConfig.setWiFiSSIDBackup; split <;> rfl

@[simp] theorem setWiFiSSIDBackup_server_url (a : String) (st : NvsStore) :
    (NVSConfig.setWiFiSSIDBackup a st).server_url = st.server_url := by
  unfold NVSConfig.setWiFiSSIDBackup; split <;> rfl

theorem setWiFiPasswordBackup_of_long (a : String) (st : NvsStore)
    (h : a.length > NVSConfig.MAX_PASSWORD_LENGTH) :
    NVSConfig.setWiFiPasswordBackup a st = st := by
  unfold NVSConfig.setWiFiPasswordBackup; rw [if_pos h]

@[simp] theorem setWiFiPasswordBackup_pass_bk (a : String) (st : NvsStore)
    (h : a.length ≤ NVSConfig.MAX_PASSWORD_LENGTH) :
    (NVSConfig.setWiFiPasswordBackup a st).wifi_pass_bk = some a := by
  unfold NVSConfig.setWiFiPasswordBackup; rw [if_neg (Nat.not_lt.mpr h)]; rfl

@[simp] theorem setWiFiPasswordBackup_provisioned (a : String) (st : NvsStore) :
    (NVSConfig.setWiFiPasswordBackup a st).provisioned = st.provisioned := by
  unfold NVSConfig.setWiFiPasswordBackup; split <;> rfl

@[simp] theorem setWiFiPasswordBackup_ssid (a : String) (st : NvsStore) :
    (NVSConfig.setWiFiPasswordBackup a st).wifi_ssid = st.wifi_ssid := by
  unfold NVSConfig.setWiFiPasswordBackup; split <;> rfl

@[simp] theorem setWiFiPasswordBackup_pass (a : String) (st : NvsStore) :
    (NVSConfig.setWiFiPasswordBackup a st).wifi_pass = st.wifi_pass := by
  unfold NVSConfig.setWiFiPasswordBackup; split <;> rfl

@[simp] theorem setWiFiPasswordBackup_ssid_bk (a : String) (st : NvsStore) :
    (NVSConfig.setWiFiPasswordBackup a st).wifi_ssid_bk = st.wifi_ssid_bk := by
  unfold NVSConfig.setWiFiPasswordBackup; split <;> rfl

@[simp] theorem setWiFiPasswordBackup_server_url (a : String) (st : NvsStore) :
    (NVSConfig.setWiFiPasswordBackup a st).server_url = st.server_url := by
  unfold NVSConfig.setWiFiPasswordBackup; split <;> rfl

theorem setServerURL_of_long (a : String) (st : NvsStore)
    (h : a.length > NVSConfig.MAX_URL_LENGTH) :
    NVSConfig.setServerURL a st = st := by
  unfold NVSConfig.setServerURL; rw [if_pos h]

@[simp] theorem setServerURL_server_url (a : String) (st : NvsStore)
    (h : a.length ≤ NVSConfig.MAX_URL_LENGTH) :
    (NVSConfig.setServerURL a st).server_url = some a := by
  unfold NVSConfig.setServerURL; rw [if_neg (Nat.not_lt.mpr h)]; rfl

@[simp] theorem setServerURL_provisioned (a : String) (st : NvsStore) :
    (NVSConfig.setServerURL a st).provisioned = st.provisioned := by
  unfold NVSConfig.setServerURL; split <;> rfl

@[simp] theorem setServerURL_ssid (a : String) (st : NvsStore) :
    (NVSConfig.setServerURL a st).wifi_ssid = st.wifi_ssid := by
  unfold NVSConfig.setServerURL; split <;> rfl

@[simp] theorem setServerURL_pass (a : String) (st : NvsStore) :
    (NVSConfig.setServerURL a st).wifi_pass = st.wifi_pass := by
  unfold NVSConfig.setServerURL; split <;> rfl

@[simp] theorem setServerURL_ssid_bk (a : String) (st : NvsStore) :
    (NVSConfig.setServerURL a st).wifi_ssid_bk = st.wifi_ssid_bk := by
  unfold NVSConfig.setServerURL; split <;> rfl

@[simp] theorem setServerURL_pass_bk (a : String) (st : NvsStore) :
    (NVSConfig.setServerURL a st).wifi_pass_bk = st.wifi_pass_bk := by
  unfold NVSConfig.setServerURL; split <;> rfl

/-! ## Claims about the device configuration model -/

/-- Claim C3: `needsRefresh v` is true iff `v` differs from the in-memory
`config_version`, for every integer `v`; and after a successful config
parse whose top-level response carries `config_version v`, a subsequent
`needsRefresh v` returns false. -/
theorem needsRefresh_change_detection (v : Int) (cur : DeviceConfig) :
    (needsRefresh v cur = true ↔ v ≠ cur.config_version)
    ∧ (∀ (d : RespDoc) (c cfg0 : DeviceConfig),
        parseConfigJson (some d) cfg0 = some c → d.config_version = some v →
        needsRefresh v c = false) := by
  constructor
  · simp [needsRefresh]
  · intro d c cfg0 hp hv
    simp only [parseConfigJson] at hp
    split at hp
    · exact absurd hp (by simp)
    · split at hp
      · exact absurd hp (by simp)
      · split at hp
        · rename_i v2 heq
          rw [hv] at heq
          injection heq with heq
          subst heq
          injection hp with hp
          subst hp
          simp [needsRefresh]
        · rename_i heq
          rw [hv] at heq
          exact absurd heq (by simp)

/-- Claim C3 witness: a concrete successful parse carrying version 5 makes
`needsRefresh 5` false afterwards. -/
theorem needsRefresh_change_detection_witness :
    needsRefresh 5 { DEFAULT_DEVICE_CONFIG with config_version := 5 } = false :=
  (needsRefresh_change_detection 5 DEFAULT_DEVICE_CONFIG).2
    ⟨true, some emptyConfigObj, some 5⟩
    { DEFAULT_DEVICE_CONFIG with config_version := 5 }
    DEFAULT_DEVICE_CONFIG rfl rfl

/-- Claim C4: `fetchConfig` is atomic on failure — whenever it returns
false (no connectivity, non-200 status, parse error, `success` flag not
true, or missing `config` object), the in-memory model and the
`configLoaded` flag are exactly what they were before the call. -/
theorem fetchConfig_atomic_on_failure (env : FetchEnv) (cur : DeviceConfig)
    (loaded : Bool) (h : (fetchConfig env cur loaded).1 = false) :
    (fetchConfig env cur loaded).2.1 = cur
    ∧ (fetchConfig env cur loaded).2.2 = loaded := by
  by_cases hw : env.wifiConnected = false
  · simp [fetchConfig, hw]
  · by_cases hc : env.httpCode = 200
    · rcases hp : parseConfigJson env.payload cur with _ | c
      · simp [fetchConfig, hw, hc, hp]
      · exfalso
        rw [fetchConfig] at h
        simp [hw, hc, hp] at h
    · simp [fetchConfig, hw, hc]

/-- Claim C4 witness: with no connectivity the call fails and the model is
untouched. -/
theorem fetchConfig_atomic_on_failure_witness :
    (fetchConfig ⟨false, 0, none⟩ DEFAULT_DEVICE_CONFIG false).2.1 = DEFAULT_DEVICE_CONFIG
    ∧ (fetchConfig ⟨false, 0, none⟩ DEFAULT_DEVICE_CONFIG false).2.2 = false :=
  fetchConfig_atomic_on_failure ⟨false, 0, none⟩ DEFAULT_DEVICE_CONFIG false rfl

set_option linter.unusedTactic false in
/-- Claim C5: the config merge is sparse — on every successful parse, each
field whose key is absent from the `config` object keeps its pre-call
value (and an absent top-level `config_version` keeps the old version); a
present-but-null `template_id` is set to the sentinel 0; a present
`display_rotation` is applied. -/
theorem parseConfigJson_sparse_merge (d : RespDoc) (cur c : DeviceConfig)
    (config : ConfigObj) (hp : parseConfigJson (some d) cur = some c)
    (hc : d.config = some config) :
    (config.heartbeat_interval_seconds = none →
      c.heartbeat_interval_seconds = cur.heartbeat_interval_seconds)
    ∧ (config.wifi_timeout_seconds = none →
      c.wifi_timeout_seconds = cur.wifi_timeout_seconds)
    ∧ (config.display_refresh_on_heartbeat = none →
      c.display_refresh_on_heartbeat = cur.display_refresh_on_heartbeat)
    ∧ (config.display_rotation = none → c.display_rotation = cur.display_rotation)
    ∧ (config.show_logo = none → c.show_logo = cur.show_logo)
    ∧ (config.screen_brightness = none → c.screen_brightness = cur.screen_brightness)
    ∧ (config.deep_sleep_enabled = none → c.deep_sleep_enabled = cur.deep_sleep_enabled)
    ∧ (config.wake_on_button = none → c.wake_on_button = cur.wake_on_button)
    ∧ (config.template_id = none → c.template_id = cur.template_id)
    ∧ (config.content_refresh_seconds = none →
      c.content_refresh_seconds = cur.content_refresh_seconds)
    ∧ (d.config_version = none → c.config_version = cur.config_version)
    ∧ (config.template_id = some none → c.template_id = 0)
    ∧ (∀ r : Int, config.display_rotation = some r → c.display_rotation = r) := by
  simp only [parseConfigJson] at hp
  split at hp
  · exact absurd hp (by simp)
  · split at hp
    · rename_i heq
      rw [hc] at heq
      exact absurd heq (by simp)
    · rename_i config2 heq
      rw [hc] at heq
      injection heq with heq
      subst heq
      split at hp <;> rename_i hver <;>
        injection hp with hp <;> subst hp <;>
        refine ⟨?_, ?_, ?_, ?_, ?_, ?_, ?_, ?_, ?_, ?_, ?_, ?_, ?_⟩ <;>
        first
          | (intro h0; simp [mergeConfig, h0]; done)
          | (intro h0; rw [hver] at h0; exact absurd h0 (by simp))
          | (intro r h0; simp [mergeConfig, h0]; done)

/-- Claim C5 witness: a response whose `config` object carries a
present-but-null `template_id` and nothing else yields the sentinel 0 and
leaves the rotation at its pre-call value. -/
theorem parseConfigJson_sparse_merge_witness :
    DEFAULT_DEVICE_CONFIG.template_id = 0
    ∧ DEFAULT_DEVICE_CONFIG.display_rotation = DEFAULT_DEVICE_CONFIG.display_rotation := by
  obtain ⟨-, -, -, h4, -, -, -, -, -, -, -, h12, -⟩ :=
    parseConfigJson_sparse_merge
      ⟨true, some { emptyConfigObj with template_id := some none }, none⟩
      DEFAULT_DEVICE_CONFIG DEFAULT_DEVICE_CONFIG
      { emptyConfigObj with template_id := some none } rfl rfl
  exact ⟨h12 rfl, h4 rfl⟩

/-! ## Claims about the persistent config store -/

/-- Claim C7 (code bug): `getConfigSummary` is supposed to render a stored
non-empty password as the fixed redaction token `****` (its own masking
expression reads `length > 0 ? "****" : ""`), but the two password reads
in the string-building code run after `close()`, so the closed
`Preferences` handle yields the default empty string and the password
fields are rendered as `""` even when a password is stored.  At a store
holding password `secret123` the summary shows an empty
`wifi_password`; moreover the summary is independent of the stored
password values altogether. -/
theorem getConfigSummary_password_not_masked :
    NVSConfig.getWiFiPassword
      ⟨some true, some "HomeNet", some "secret123", none, none, some "http://example"⟩
      = "secret123"
    ∧ NVSConfig.getConfigSummary
      ⟨some true, some "HomeNet", some "secret123", none, none, some "http://example"⟩
      = "\x7b\"provisioned\":true,\"wifi_ssid\":\"HomeNet\",\"wifi_password\":\"\",\"wifi_ssid_backup\":\"\",\"wifi_password_backup\":\"\",\"server_url\":\"http://example\"\x7d"
    ∧ ∀ (st : NvsStore) (pw1 pw2 : Option String),
        NVSConfig.getConfigSummary { st with wifi_pass := pw1, wifi_pass_bk := pw2 }
          = NVSConfig.getConfigSummary { st with wifi_pass := none, wifi_pass_bk := none } :=
  ⟨rfl, rfl, fun _ _ _ => rfl⟩

/-- Claim C8: each credential setter rejects an input exceeding its
maximum length (32 for SSIDs, 64 for passwords, 256 for the URL) as a
complete no-op on the store, and stores an input within the bound. -/
theorem setters_length_guard (st : NvsStore) (a : String) :
    (a.length > NVSConfig.MAX_SSID_LENGTH → NVSConfig.setWiFiSSID a st = st)
    ∧ (a.length ≤ NVSConfig.MAX_SSID_LENGTH →
        NVSConfig.getWiFiSSID (NVSConfig.setWiFiSSID a st) = a)
    ∧ (a.length > NVSConfig.MAX_PASSWORD_LENGTH → NVSConfig.setWiFiPassword a st = st)
    ∧ (a.length ≤ NVSConfig.MAX_PASSWORD_LENGTH →
        NVSConfig.getWiFiPassword (NVSConfig.setWiFiPassword a st) = a)
    ∧ (a.length > NVSConfig.MAX_SSID_LENGTH → NVSConfig.setWiFiSSIDBackup a st = st)
    ∧ (a.length ≤ NVSConfig.MAX_SSID_LENGTH →
        NVSConfig.getWiFiSSIDBackup (NVSConfig.setWiFiSSIDBackup a st) = a)
    ∧ (a.length > NVSConfig.MAX_PASSWORD_LENGTH →
        NVSConfig.setWiFiPasswordBackup a st = st)
    ∧ (a.length ≤ NVSConfig.MAX_PASSWORD_LENGTH →
        NVSConfig.getWiFiPasswordBackup (NVSConfig.setWiFiPasswordBackup a st) = a)
    ∧ (a.length > NVSConfig.MAX_URL_LENGTH → NVSConfig.setServerURL a st = st)
    ∧ (a.length ≤ NVSConfig.MAX_URL_LENGTH →
        NVSConfig.getServerURL (NVSConfig.setServerURL a st) = a) :=
  ⟨fun h => setWiFiSSID_of_long a st h,
   fun h => by simp [h],
   fun h => setWiFiPassword_of_long a st h,
   fun h => by simp [h],
   fun h => setWiFiSSIDBackup_of_long a st h,
   fun h => by simp [h],
   fun h => setWiFiPasswordBackup_of_long a st h,
   fun h => by simp [h],
   fun h => setServerURL_of_long a st h,
   fun h => by simp [h]⟩

/-- Claim C8 witness: a 33-character SSID is rejected as a no-op on a
concrete store, while a short SSID is stored. -/
theorem setters_length_guard_witness :
    NVSConfig.setWiFiSSID (String.mk (List.replicate 33 'a'))
      ⟨none, some "Net", none, none, none, none⟩
      = ⟨none, some "Net", none, none, none, none⟩
    ∧ NVSConfig.getWiFiSSID
        (NVSConfig.setWiFiSSID "Net1" ⟨none, some "Net", none, none, none, none⟩)
      = "Net1" :=
  ⟨(setters_length_guard ⟨none, some "Net", none, none, none, none⟩
      (String.mk (List.replicate 33 'a'))).1 (by decide),
   (setters_length_guard ⟨none, some "Net", none, none, none, none⟩ "Net1").2.1
      (by decide)⟩

/-! ## Claims about the serial provisioning protocol -/

/-- Claim C9: the `reset` command clears the store to its default state
(every key erased) and responds `config_cleared`; a subsequent
`get_config` returns `provisioned=false` and empty strings for
`wifi_ssid`, `wifi_ssid_backup` and `server_url`, and every getter
returns its documented default on the cleared store. -/
theorem reset_returns_defaults (ctx : ProvCtx) (st : ProvState) (b : Bool) :
    executeCommand ctx (some ⟨some "reset", none, none, none⟩) st
      = ({ store := emptyStore, restartRequested := true },
          Response.simple "ok" "config_cleared")
    ∧ executeCommand ctx (some ⟨some "get_config", none, none, none⟩) ⟨emptyStore, b⟩
      = (⟨emptyStore, b⟩, Response.config "ok" false "" "" "")
    ∧ NVSConfig.isProvisioned emptyStore = false
    ∧ NVSConfig.getWiFiSSID emptyStore = ""
    ∧ NVSConfig.getWiFiPassword emptyStore = ""
    ∧ NVSConfig.getWiFiSSIDBackup emptyStore = ""
    ∧ NVSConfig.getWiFiPasswordBackup emptyStore = ""
    ∧ NVSConfig.getServerURL emptyStore = "" :=
  ⟨rfl, rfl, rfl, rfl, rfl, rfl, rfl, rfl⟩

/-- Claim C10: a `set_wifi` command whose document has an `ssid` field but
no `password` field leaves the stored WiFi password, the backup
credentials, the server URL and the provisioned flag unchanged; a
`set_wifi_backup` command without a `password` field likewise leaves the
primary credentials, the backup password, the server URL and the
provisioned flag unchanged. -/
theorem set_wifi_without_password_frame (ctx : ProvCtx) (st : ProvState) (v : String) :
    (NVSConfig.getWiFiPassword
        ((executeCommand ctx (some ⟨some "set_wifi", some v, none, none⟩) st).1.store)
      = NVSConfig.getWiFiPassword st.store
    ∧ NVSConfig.getWiFiSSIDBackup
        ((executeCommand ctx (some ⟨some "set_wifi", some v, none, none⟩) st).1.store)
      = NVSConfig.getWiFiSSIDBackup st.store
    ∧ NVSConfig.getWiFiPasswordBackup
        ((executeCommand ctx (some ⟨some "set_wifi", some v, none, none⟩) st).1.store)
      = NVSConfig.getWiFiPasswordBackup st.store
    ∧ NVSConfig.getServerURL
        ((executeCommand ctx (some ⟨some "set_wifi", some v, none, none⟩) st).1.store)
      = NVSConfig.getServerURL st.store
    ∧ NVSConfig.isProvisioned
        ((executeCommand ctx (some ⟨some "set_wifi", some v, none, none⟩) st).1.store)
      = NVSConfig.isProvisioned st.store)
    ∧ (NVSConfig.getWiFiSSID
        ((executeCommand ctx (some ⟨some "set_wifi_backup", some v, none, none⟩) st).1.store)
      = NVSConfig.getWiFiSSID st.store
    ∧ NVSConfig.getWiFiPassword
        ((executeCommand ctx (some ⟨some "set_wifi_backup", some v, none, none⟩) st).1.store)
      = NVSConfig.getWiFiPassword st.store
    ∧ NVSConfig.getWiFiPasswordBackup
        ((executeCommand ctx (some ⟨some "set_wifi_backup", some v, none, none⟩) st).1.store)
      = NVSConfig.getWiFiPasswordBackup st.store
    ∧ NVSConfig.getServerURL
        ((executeCommand ctx (some ⟨some "set_wifi_backup", some v, none, none⟩) st).1.store)
      = NVSConfig.getServerURL st.store
    ∧ NVSConfig.isProvisioned
        ((executeCommand ctx (some ⟨some "set_wifi_backup", some v, none, none⟩) st).1.store)
      = NVSConfig.isProvisioned st.store) := by
  have e1 : (executeCommand ctx (some ⟨some "set_wifi", some v, none, none⟩) st).1.store
      = NVSConfig.setWiFiSSID v st.store := rfl
  have e2 : (executeCommand ctx (some ⟨some "set_wifi_backup", some v, none, none⟩) st).1.store
      = NVSConfig.setWiFiSSIDBackup v st.store := rfl
  rw [e1, e2]
  simp

/-- Claim C1: `provision` succeeds (responds `ok`/`provisioned` and sets
the provisioned flag) iff both the stored WiFi SSID and the stored server
URL are non-empty at the time of the call; with an empty SSID it responds
`wifi_not_configured`, with a non-empty SSID but empty URL it responds
`server_not_configured`, and in both failure cases the whole session
state — store included — is unchanged (so `isProvisioned` keeps its
value); and no command other than `provision` ever turns the provisioned
flag from false to true. -/
theorem provision_guarded_commit (ctx : ProvCtx) (st : ProvState) :
    ((NVSConfig.getWiFiSSID st.store).length ≠ 0 →
      (NVSConfig.getServerURL st.store).length ≠ 0 →
      executeCommand ctx (some ⟨some "provision", none, none, none⟩) st
        = ({ store := NVSConfig.setProvisioned true st.store, restartRequested := true },
            Response.simple "ok" "provisioned")
      ∧ NVSConfig.isProvisioned
          ((executeCommand ctx (some ⟨some "provision", none, none, none⟩) st).1.store)
        = true)
    ∧ ((NVSConfig.getWiFiSSID st.store).length = 0 →
      executeCommand ctx (some ⟨some "provision", none, none, none⟩) st
        = (st, Response.simple "error" "wifi_not_configured"))
    ∧ ((NVSConfig.getWiFiSSID st.store).length ≠ 0 →
      (NVSConfig.getServerURL st.store).length = 0 →
      executeCommand ctx (some ⟨some "provision", none, none, none⟩) st
        = (st, Response.simple "error" "server_not_configured"))
    ∧ (∀ doc : Option CmdDoc,
        NVSConfig.isProvisioned ((executeCommand ctx doc st).1.store) = true →
        NVSConfig.isProvisioned st.store = true
        ∨ ∃ d : CmdDoc, doc = some d ∧ d.cmd = some "provision") := by
  have e : executeCommand ctx (some ⟨some "provision", none, none, none⟩) st
      = if (NVSConfig.getWiFiSSID st.store).length = 0 then
          (st, Response.simple "error" "wifi_not_configured")
        else if (NVSConfig.getServerURL st.store).length = 0 then
          (st, Response.simple "error" "server_not_configured")
        else
          ({ store := NVSConfig.setProvisioned true st.store, restartRequested := true },
            Response.simple "ok" "provisioned") := rfl
  refine ⟨?_, ?_, ?_, ?_⟩
  · intro h1 h2
    rw [e, if_neg h1, if_neg h2]
    exact ⟨rfl, by simp⟩
  · intro h1
    rw [e, if_pos h1]
  · intro h1 h2
    rw [e, if_neg h1, if_pos h2]
  · intro doc hp
    cases doc with
    | none => exact Or.inl hp
    | some d =>
      rcases hcmd : d.cmd with _ | cmd
      · refine Or.inl ?_
        have e0 : executeCommand ctx (some d) st
            = (st, Response.simple "error" "missing_cmd") := by
          simp only [executeCommand, hcmd]
        rw [e0] at hp
        exact hp
      · simp only [executeCommand, hcmd] at hp
        split at hp
        · -- unreachable none arm
          exact Or.inl hp
        · -- get_info
          exact Or.inl hp
        · -- get_config
          exact Or.inl hp
        · -- set_wifi
          rcases hss : d.ssid with _ | ssid <;> rw [hss] at hp
          · exact Or.inl hp
          · rcases hpw : d.password with _ | pw <;> rw [hpw] at hp <;>
              exact Or.inl (by simpa using hp)
        · -- set_wifi_backup
          rcases hss : d.ssid with _ | ssid <;> rw [hss] at hp
          · exact Or.inl hp
          · rcases hpw : d.password with _ | pw <;> rw [hpw] at hp <;>
              exact Or.inl (by simpa using hp)
        · -- set_server
          rcases hu : d.url with _ | url <;> rw [hu] at hp
          · exact Or.inl hp
          · exact Or.inl (by simpa using hp)
        · -- provision
          rename_i heq
          split at hp
          · exact Or.inl hp
          · split at hp
            · exact Or.inl hp
            · exact Or.inr ⟨d, rfl, hcmd.trans heq⟩
        · -- reset
          simp [emptyStore] at hp
        · -- reboot
          exact Or.inl hp
        · -- unknown command
          exact Or.inl hp

/-- Claim C1 witness: on the empty store `provision` fails with
`wifi_not_configured` and changes nothing; on a store with both SSID and
URL set it succeeds and sets the flag. -/
theorem provision_guarded_commit_witness :
    executeCommand ⟨"t", "v", "m"⟩ (some ⟨some "provision", none, none, none⟩)
        ⟨emptyStore, false⟩
      = (⟨emptyStore, false⟩, Response.simple "error" "wifi_not_configured")
    ∧ executeCommand ⟨"t", "v", "m"⟩ (some ⟨some "provision", none, none, none⟩)
        ⟨⟨none, some "Net1", none, none, none, some "http://x"⟩, false⟩
      = (⟨⟨some true, some "Net1", none, none, none, some "http://x"⟩, true⟩,
          Response.simple "ok" "provisioned") :=
  ⟨(provision_guarded_commit ⟨"t", "v", "m"⟩ ⟨emptyStore, false⟩).2.1 rfl,
   by
    have h := (provision_guarded_commit ⟨"t", "v", "m"⟩
        ⟨⟨none, some "Net1", none, none, none, some "http://x"⟩, false⟩).1
        (by decide) (by decide)
    exact h.1⟩

/-- Helper for claim C6: across a run of well-formed `set_wifi` and
`set_server` commands, the stored SSID and server URL track the last
written values, and the backup SSID and the provisioned flag are
untouched. -/
theorem runCmds_tracks_last_written (ctx : ProvCtx) (docs : List CmdDoc) :
    ∀ st : ProvState, (∀ d ∈ docs, validSetCmd d) →
      ((runCmds ctx docs st).store.wifi_ssid).getD ""
          = lastSsid docs ((st.store.wifi_ssid).getD "")
      ∧ ((runCmds ctx docs st).store.server_url).getD ""
          = lastUrl docs ((st.store.server_url).getD "")
      ∧ (runCmds ctx docs st).store.wifi_ssid_bk = st.store.wifi_ssid_bk
      ∧ (runCmds ctx docs st).store.provisioned = st.store.provisioned := by
  induction docs with
  | nil => exact fun st h => ⟨rfl, rfl, rfl, rfl⟩
  | cons d rest ih =>
    intro st h
    have hrest : ∀ x ∈ rest, validSetCmd x :=
      fun x hx => h x (List.mem_cons_of_mem d hx)
    rcases h d (List.mem_cons_self d rest) with ⟨hc, ⟨v, hv, hlen⟩, -⟩ | ⟨hc, ⟨u, hu, hulen⟩⟩
    · -- set_wifi step
      have estep : (executeCommand ctx (some d) st).1
          = { st with store :=
                match d.password with
                | some pw =>
                  NVSConfig.setWiFiPassword pw (NVSConfig.setWiFiSSID v st.store)
                | none => NVSConfig.setWiFiSSID v st.store } := by
        simp only [executeCommand, hc, hv]
      have erun : runCmds ctx (d :: rest) st
          = runCmds ctx rest (executeCommand ctx (some d) st).1 := rfl
      rw [erun, estep]
      obtain ⟨i1, i2, i3, i4⟩ := ih _ hrest
      rw [i1, i2, i3, i4]
      rcases hpw : d.password with _ | pw <;>
        refine ⟨?_, ?_, ?_, ?_⟩ <;>
        simp +decide [lastSsid, lastUrl, hc, hv, hlen]
    · -- set_server step
      have estep : (executeCommand ctx (some d) st).1
          = { st with store := NVSConfig.setServerURL u st.store } := by
        simp only [executeCommand, hc, hu]
      have erun : runCmds ctx (d :: rest) st
          = runCmds ctx rest (executeCommand ctx (some d) st).1 := rfl
      rw [erun, estep]
      obtain ⟨i1, i2, i3, i4⟩ := ih _ hrest
      rw [i1, i2, i3, i4]
      refine ⟨?_, ?_, ?_, ?_⟩ <;>
        simp +decide [lastSsid, lastUrl, hc, hu, hulen]

/-- Claim C6: after any sequence of well-formed `set_wifi` and
`set_server` commands, a `get_config` command returns exactly the
last-written SSID and last-written server URL; and the `get_config`
response is built only from the provisioned flag, the two SSIDs and the
URL, so it never carries a password field or password value (stores
differing only in their passwords produce identical responses). -/
theorem get_config_returns_last_written (ctx : ProvCtx) (docs : List CmdDoc)
    (st : ProvState) (h : ∀ d ∈ docs, validSetCmd d) :
    (∃ p bk,
      (executeCommand ctx (some ⟨some "get_config", none, none, none⟩)
          (runCmds ctx docs st)).2
        = Response.config "ok" p
            (lastSsid docs (NVSConfig.getWiFiSSID st.store)) bk
            (lastUrl docs (NVSConfig.getServerURL st.store)))
    ∧ (∀ st1 st2 : NvsStore, st1.provisioned = st2.provisioned →
        st1.wifi_ssid = st2.wifi_ssid → st1.wifi_ssid_bk = st2.wifi_ssid_bk →
        st1.server_url = st2.server_url → sendConfig st1 = sendConfig st2) := by
  constructor
  · obtain ⟨i1, i2, -, -⟩ := runCmds_tracks_last_written ctx docs st h
    refine ⟨NVSConfig.isProvisioned (runCmds ctx docs st).store,
            NVSConfig.getWiFiSSIDBackup (runCmds ctx docs st).store, ?_⟩
    have e : (executeCommand ctx (some ⟨some "get_config", none, none, none⟩)
        (runCmds ctx docs st)).2 = sendConfig (runCmds ctx docs st).store := rfl
    rw [e]
    unfold sendConfig
    rw [show NVSConfig.getWiFiSSID (runCmds ctx docs st).store
          = lastSsid docs (NVSConfig.getWiFiSSID st.store) by simpa using i1,
        show NVSConfig.getServerURL (runCmds ctx docs st).store
          = lastUrl docs (NVSConfig.getServerURL st.store) by simpa using i2]
  · intro st1 st2 h1 h2 h3 h4
    unfold sendConfig
    rw [isProvisioned_def, isProvisioned_def, h1, getWiFiSSID_def, getWiFiSSID_def,
      h2, getWiFiSSIDBackup_def, getWiFiSSIDBackup_def, h3, getServerURL_def,
      getServerURL_def, h4]

/-- Claim C6 witness: from the empty store, `set_wifi` with SSID `Net1`
then `set_server` with `http://x` makes `get_config` return exactly those
two values. -/
theorem get_config_returns_last_written_witness :
    ∃ p bk,
      (executeCommand ⟨"t", "v", "m"⟩ (some ⟨some "get_config", none, none, none⟩)
          (runCmds ⟨"t", "v", "m"⟩
            [⟨some "set_wifi", some "Net1", some "pw", none⟩,
             ⟨some "set_server", none, none, some "http://x"⟩]
            ⟨emptyStore, false⟩)).2
        = Response.config "ok" p "Net1" bk "http://x" := by
  obtain ⟨⟨p, bk, hp⟩, -⟩ :=
    get_config_returns_last_written ⟨"t", "v", "m"⟩
      [⟨some "set_wifi", some "Net1", some "pw", none⟩,
       ⟨some "set_server", none, none, some "http://x"⟩]
      ⟨emptyStore, false⟩
      (by
        intro d hd
        simp only [List.mem_cons, List.not_mem_nil, or_false] at hd
        rcases hd with rfl | rfl
        · exact Or.inl ⟨rfl, ⟨"Net1", rfl, by decide⟩,
            fun pw hpw => by cases hpw; decide⟩
        · exact Or.inr ⟨rfl, ⟨"http://x", rfl, by decide⟩⟩)
  exact ⟨p, bk, hp⟩

set_option maxRecDepth 100000 in
/-- Claim C2 (code bug): the overflow handling of `processSerial` does not
satisfy the claimed contract.  Feeding 513 non-terminator characters
emits one `command_too_long` but leaves a one-character residue in the
buffer instead of resetting it; the residue then corrupts the next
terminated command line (the line handed to `executeCommand` is the
residue-prefixed `a{"cmd":"reboot"}`, which is not valid JSON, instead of
the intended command); and a 1024-character overlong line emits two
`command_too_long` responses instead of exactly one. -/
theorem processSerial_overflow_corrupts :
    processSerial (List.replicate 513 'a') [] 0 = ((['a'], 1), [SerialEvent.tooLong])
    ∧ processSerial
        (List.replicate 513 'a' ++ ("\x7b\"cmd\":\"reboot\"\x7d\n").toList) [] 0
      = (([], 0),
          [SerialEvent.tooLong, SerialEvent.line ("a\x7b\"cmd\":\"reboot\"\x7d")])
    ∧ processSerial (List.replicate 1024 'a') [] 0
      = (([], 0), [SerialEvent.tooLong, SerialEvent.tooLong]) := by
  refine ⟨by decide, by decide, by decide⟩
